import Mathlib

/-!
Verification of the CSI-receiver firmware
(`src/firmware/csi_receiver/main/csi_receiver.c`).

The file embeds the two callbacks (`wifi_csi_cb`, `wifi_event_handler`)
and the initialization sequence (`wifi_init`) as pure Lean functions and
traces, and proves the testable properties of the design document about
them.
-/

/-- `WIFI_SSID` compile-time constant (line 9 of the source). -/
def WIFI_SSID : String := "Connecting..."

/-- `WIFI_PASS` compile-time constant (line 10 of the source). -/
def WIFI_PASS : String := "Error501"

/-- `TAG` log tag (line 12 of the source). -/
def TAG : String := "CSI"

/-- Event bases (`esp_event_base_t` identifiers compared by pointer
equality in the source); `OTHER_EVENT` stands for any base distinct from
the two the handler tests. -/
inductive EventBase
  | WIFI_EVENT
  | IP_EVENT
  | OTHER_EVENT
deriving DecidableEq, Repr

/-- Vendor event-id constant `WIFI_EVENT_STA_START` (value from the ESP-IDF
headers; only its distinctness from the other ids matters). -/
def WIFI_EVENT_STA_START : Int := 2

/-- Vendor event-id constant `WIFI_EVENT_STA_DISCONNECTED`. -/
def WIFI_EVENT_STA_DISCONNECTED : Int := 5

/-- Vendor event-id constant `IP_EVENT_STA_GOT_IP`. -/
def IP_EVENT_STA_GOT_IP : Int := 0

/-- Vendor constant `ESP_EVENT_ANY_ID`. -/
def ESP_EVENT_ANY_ID : Int := -1

/-- The observable actions the event handler can perform:
`esp_wifi_connect()` calls and `ESP_LOGI(tag, msg)` log lines. -/
inductive FwAction
  | connect
  | logInfo (tag : String) (msg : String)
deriving DecidableEq, Repr

/-- The CSI sample handed to the callback: a length field and the byte
buffer, modelled as a function from index to the signed value stored in
the cell (`info->len` and `info->buf[i]` in the source). -/
structure CsiInfo where
  len : Int
  buf : Int → Int

/-- Embedding of `wifi_csi_cb` (source lines 15-23): prints the label
`"CSI_DATA: "`, then for `i = 0` while `i < info->len` prints
`printf("%d ", info->buf[i])`, then a newline.  The `ctx` argument is
ignored, exactly as in the source.  The return value is the full text
emitted by one invocation. -/
def wifi_csi_cb (ctx : Option Nat) (info : CsiInfo) : String :=
  "CSI_DATA: " ++
    String.join ((List.range info.len.toNat).map
      (fun i => toString (info.buf (Int.ofNat i)) ++ " ")) ++
    "\n"

/-- A `CsiInfo` whose buffer holds exactly the bytes of `l` (the driver
delivers a buffer of `l.length` valid cells). -/
def sampleInfo (l : List Int) : CsiInfo :=
  ⟨Int.ofNat l.length, fun i => l.getD i.toNat 0⟩

/-- Embedding of `wifi_event_handler` (source lines 26-44), returning the
list of actions one invocation performs, in program order.  `arg` and
`event_data` are the ignored `void*` parameters. -/
def wifi_event_handler (arg : Option Nat) (event_base : EventBase)
    (event_id : Int) (event_data : Option Nat) : List FwAction :=
  if event_base = EventBase.WIFI_EVENT ∧ event_id = WIFI_EVENT_STA_START then
    [FwAction.connect]
  else if event_base = EventBase.WIFI_EVENT ∧ event_id = WIFI_EVENT_STA_DISCONNECTED then
    [FwAction.connect, FwAction.logInfo TAG "Retrying WiFi connection..."]
  else if event_base = EventBase.IP_EVENT ∧ event_id = IP_EVENT_STA_GOT_IP then
    [FwAction.logInfo TAG "WiFi connected. CSI should start appearing."]
  else
    []

/-- The action trace produced by delivering a finite sequence of events to
the handler, one after the other (the dispatcher is single-threaded, so
the whole trace is the concatenation of the per-event traces; nothing else
runs between deliveries). -/
def handleEvents (evs : List (EventBase × Int)) : List FwAction :=
  (evs.map (fun e => wifi_event_handler none e.1 e.2 none)).flatten

/-- Number of `esp_wifi_connect()` calls in an action trace. -/
def connectCount (as : List FwAction) : Nat :=
  as.countP (fun a => a = FwAction.connect)

/-- Number of log lines in an action trace. -/
def logCount (as : List FwAction) : Nat :=
  as.countP (fun a => match a with | FwAction.logInfo _ _ => true | _ => false)

/-- The CSI capture configuration record (`wifi_csi_config_t`, source
lines 81-89): boolean feature flags. -/
structure CsiConfig where
  lltf_en : Bool
  htltf_en : Bool
  stbc_htltf2_en : Bool
  ltf_merge_en : Bool
  channel_filter_en : Bool
  manu_scale : Bool
  shift : Bool
deriving DecidableEq, Repr

/-- The `csi_config` value built in `wifi_init` (source lines 81-89). -/
def csi_config_src : CsiConfig :=
  { lltf_en := true, htltf_en := true, stbc_htltf2_en := true,
    ltf_merge_en := true, channel_filter_en := false,
    manu_scale := false, shift := false }

/-- Vendor constant `WIFI_AUTH_WPA2_PSK` (minimum accepted authentication
strength). -/
def WIFI_AUTH_WPA2_PSK : Nat := 3

/-- Handler function pointers that the source registers (only two
functions are ever passed by address). -/
inductive HandlerRef
  | wifi_event_handler_ref
  | wifi_csi_cb_ref
deriving DecidableEq, Repr

/-- One call made by `wifi_init` (source lines 47-96), abstracted to the
call's name and arguments. -/
inductive InitStep
  | esp_netif_init
  | esp_event_loop_create_default
  | esp_netif_create_default_wifi_sta
  | esp_wifi_init_default_cfg
  | esp_event_handler_instance_register (base : EventBase) (id : Int) (h : HandlerRef)
  | esp_wifi_set_mode_sta
  | esp_wifi_set_config_sta (ssid : String) (pass : String) (authmode : Nat)
  | esp_wifi_start
  | esp_wifi_set_csi_config (c : CsiConfig)
  | esp_wifi_set_csi_rx_cb (h : HandlerRef) (ctx : Option Nat)
  | esp_wifi_set_csi (b : Bool)
  | log_info (tag : String) (msg : String)
deriving DecidableEq, Repr

/-- The sequence of calls `wifi_init` makes, in source order
(lines 49-95). -/
def wifi_init_trace : List InitStep :=
  [ InitStep.esp_netif_init,
    InitStep.esp_event_loop_create_default,
    InitStep.esp_netif_create_default_wifi_sta,
    InitStep.esp_wifi_init_default_cfg,
    InitStep.esp_event_handler_instance_register EventBase.WIFI_EVENT
      ESP_EVENT_ANY_ID HandlerRef.wifi_event_handler_ref,
    InitStep.esp_event_handler_instance_register EventBase.IP_EVENT
      IP_EVENT_STA_GOT_IP HandlerRef.wifi_event_handler_ref,
    InitStep.esp_wifi_set_mode_sta,
    InitStep.esp_wifi_set_config_sta WIFI_SSID WIFI_PASS WIFI_AUTH_WPA2_PSK,
    InitStep.esp_wifi_start,
    InitStep.esp_wifi_set_csi_config csi_config_src,
    InitStep.esp_wifi_set_csi_rx_cb HandlerRef.wifi_csi_cb_ref none,
    InitStep.esp_wifi_set_csi true,
    InitStep.log_info TAG "CSI initialized" ]

/-- Selects the init steps the spec's `initialize()` description
enumerates (everything except the CSI capture setup and log lines). -/
def isCoreInitStep : InitStep → Bool
  | InitStep.esp_wifi_set_csi_config _ => false
  | InitStep.esp_wifi_set_csi_rx_cb _ _ => false
  | InitStep.esp_wifi_set_csi _ => false
  | InitStep.log_info _ _ => false
  | _ => true

/-- The order the spec claims for `initialize()`: config applied before
the operating mode is set. -/
def claimedInitOrder : List InitStep :=
  [ InitStep.esp_netif_init,
    InitStep.esp_event_loop_create_default,
    InitStep.esp_netif_create_default_wifi_sta,
    InitStep.esp_wifi_init_default_cfg,
    InitStep.esp_event_handler_instance_register EventBase.WIFI_EVENT
      ESP_EVENT_ANY_ID HandlerRef.wifi_event_handler_ref,
    InitStep.esp_event_handler_instance_register EventBase.IP_EVENT
      IP_EVENT_STA_GOT_IP HandlerRef.wifi_event_handler_ref,
    InitStep.esp_wifi_set_config_sta WIFI_SSID WIFI_PASS WIFI_AUTH_WPA2_PSK,
    InitStep.esp_wifi_set_mode_sta,
    InitStep.esp_wifi_start ]

/-- The order the source actually follows: operating mode set before the
config is applied. -/
def actualInitOrder : List InitStep :=
  [ InitStep.esp_netif_init,
    InitStep.esp_event_loop_create_default,
    InitStep.esp_netif_create_default_wifi_sta,
    InitStep.esp_wifi_init_default_cfg,
    InitStep.esp_event_handler_instance_register EventBase.WIFI_EVENT
      ESP_EVENT_ANY_ID HandlerRef.wifi_event_handler_ref,
    InitStep.esp_event_handler_instance_register EventBase.IP_EVENT
      IP_EVENT_STA_GOT_IP HandlerRef.wifi_event_handler_ref,
    InitStep.esp_wifi_set_mode_sta,
    InitStep.esp_wifi_set_config_sta WIFI_SSID WIFI_PASS WIFI_AUTH_WPA2_PSK,
    InitStep.esp_wifi_start ]

/-- Modelled from the spec: the radio's CSI registration state.  The
calls `esp_wifi_set_csi_config`, `esp_wifi_set_csi_rx_cb` and
`esp_wifi_set_csi` are vendor-stack operations (not part of this
repository's sources); per the spec, registration installs the capture
configuration, designates the callback as the exclusive receiver of
subsequent samples, and enabling capture is a separate explicit step. -/
structure RadioCsiState where
  csiConfig : Option CsiConfig
  csiCallback : Option ((Option Nat) × (Option Nat → CsiInfo → String))
  csiEnabled : Bool

/-- Modelled from the spec: `esp_wifi_set_csi_config` installs the CSI
capture configuration on the radio. -/
def set_csi_config_op (c : CsiConfig) (s : RadioCsiState) : RadioCsiState :=
  { s with csiConfig := some c }

/-- Modelled from the spec: `esp_wifi_set_csi_rx_cb` designates the given
function (with its context argument) as the exclusive receiver of
subsequent CSI samples. -/
def set_csi_rx_cb_op (f : Option Nat → CsiInfo → String) (ctx : Option Nat)
    (s : RadioCsiState) : RadioCsiState :=
  { s with csiCallback := some (ctx, f) }

/-- Modelled from the spec: `esp_wifi_set_csi` enables or disables
capture. -/
def set_csi_op (b : Bool) (s : RadioCsiState) : RadioCsiState :=
  { s with csiEnabled := b }

/-- The capture registration sequence of `wifi_init` (source lines 91-93):
install the configuration, register the callback, set capture
enablement. -/
def registrationSeq (c : CsiConfig) (f : Option Nat → CsiInfo → String)
    (ctx : Option Nat) (b : Bool) (s : RadioCsiState) : RadioCsiState :=
  set_csi_op b (set_csi_rx_cb_op f ctx (set_csi_config_op c s))

/-- Modelled from the spec: the output lines subsequently produced when
the driver delivers `samples`, as a function of the registration state —
when capture is enabled, each delivered sample is handed to the designated
callback with its registered context. -/
def subsequentOutput (s : RadioCsiState) (samples : List CsiInfo) : List String :=
  if s.csiEnabled then
    match s.csiCallback with
    | some (ctx, f) => samples.map (f ctx)
    | none => []
  else []

/-- The console after one callback invocation: the emitted line appended
to whatever was already printed. -/
def csiConsoleRun (hist : List String) (ctx : Option Nat) (info : CsiInfo) :
    List String :=
  hist ++ [wifi_csi_cb ctx info]

/-- The line format the spec's amended Scenario 3 describes: the label,
then each byte's decimal form followed by a single space, then a
newline. -/
def specTokenLine (l : List Int) : String :=
  "CSI_DATA: " ++ String.join (l.map (fun v => toString v ++ " ")) ++ "\n"

/-- Indexing a list by the positions of `List.range` recovers a plain
map over the list. -/
theorem range_map_getD (g : Int → String) (l : List Int) :
    (List.range l.length).map (fun i => g (l.getD i 0)) = l.map g := by
  induction l with
  | nil => rfl
  | cons a t ih =>
    rw [List.length_cons, List.range_succ_eq_map, List.map_cons, List.map_map,
      List.map_cons]
    exact congrArg (List.cons (g a)) ih

/-- The emitted line depends only on the sample's length and the buffer
cells at indices `0 .. len-1`; the context argument is irrelevant. -/
theorem wifi_csi_cb_congr (ctx1 ctx2 : Option Nat) (info1 info2 : CsiInfo)
    (hlen : info1.len = info2.len)
    (hbuf : ∀ i : Int, 0 ≤ i → i < info1.len → info1.buf i = info2.buf i) :
    wifi_csi_cb ctx1 info1 = wifi_csi_cb ctx2 info2 := by
  unfold wifi_csi_cb
  rw [hlen]
  congr 2
  refine congrArg String.join ?_
  apply List.map_congr_left
  intro i hi
  have hmem : i < info2.len.toNat := List.mem_range.mp hi
  have h0 : (0 : Int) ≤ Int.ofNat i := Int.ofNat_nonneg i
  have hlt : Int.ofNat i < info1.len := by
    show (i : Int) < info1.len
    rw [hlen]
    omega
  rw [hbuf (Int.ofNat i) h0 hlt]

/-- C1: the claim's emitted-line format is wrong on the code: the loop
prints `"%d "` for every byte, so every token — the last one included —
is followed by a space, and the scenario sample `[1, -2, 300]` yields
`"CSI_DATA: 1 -2 300 \n"`, not `"CSI_DATA: 1 -2 300\n"` as the claim
states. -/
theorem csi_scenario_trailing_space_cex :
    wifi_csi_cb none (sampleInfo [1, -2, 300]) = "CSI_DATA: 1 -2 300 \n" ∧
    wifi_csi_cb none (sampleInfo [1, -2, 300]) ≠ "CSI_DATA: 1 -2 300\n" := by
  constructor
  · rfl
  · decide

/-- C1 (amended): for every sample, the emitted output line is the label
`"CSI_DATA: "` followed by the decimal form of each byte of the sample in
order, each token followed by a single space, terminated by a single
newline; the sample `[1, -2, 300]` yields `"CSI_DATA: 1 -2 300 \n"`. -/
theorem csi_line_format (ctx : Option Nat) (l : List Int) :
    wifi_csi_cb ctx (sampleInfo l) = specTokenLine l := by
  unfold wifi_csi_cb specTokenLine sampleInfo
  congr 2
  exact congrArg String.join (range_map_getD (fun v => toString v ++ " ") l)

/-- C6: a sample of length 0 produces exactly the line
`"CSI_DATA: \n"` — the label (whose last character is a space) followed
immediately by the newline. -/
theorem csi_empty_sample_line (ctx : Option Nat) :
    wifi_csi_cb ctx (sampleInfo []) = "CSI_DATA: \n" := rfl

/-- C2: over any finite sequence of station-started and
station-disconnected events, the action trace contains exactly one
connect request per delivered event, and each event's own segment of the
trace contains exactly one connect request (so none falls between two
deliveries). -/
theorem connect_once_per_event (evs : List (EventBase × Int))
    (h : ∀ e ∈ evs, e = (EventBase.WIFI_EVENT, WIFI_EVENT_STA_START) ∨
        e = (EventBase.WIFI_EVENT, WIFI_EVENT_STA_DISCONNECTED)) :
    connectCount (handleEvents evs) = evs.length ∧
    ∀ e ∈ evs, connectCount (wifi_event_handler none e.1 e.2 none) = 1 := by
  constructor
  · induction evs with
    | nil => rfl
    | cons e t ih =>
      have he := h e (List.mem_cons_self e t)
      have ht := ih (fun x hx => h x (List.mem_cons_of_mem e hx))
      have hone : connectCount (wifi_event_handler none e.1 e.2 none) = 1 := by
        rcases he with rfl | rfl <;> decide
      show connectCount (wifi_event_handler none e.1 e.2 none ++ handleEvents t)
          = t.length + 1
      unfold connectCount at *
      rw [List.countP_append, hone, ht]
      omega
  · intro e he
    rcases h e he with rfl | rfl <;> decide

/-- Witness for `connect_once_per_event` on the concrete event sequence
started, disconnected. -/
theorem connect_once_per_event_witness :
    connectCount (handleEvents
        [(EventBase.WIFI_EVENT, WIFI_EVENT_STA_START),
         (EventBase.WIFI_EVENT, WIFI_EVENT_STA_DISCONNECTED)])
      = [(EventBase.WIFI_EVENT, WIFI_EVENT_STA_START),
         (EventBase.WIFI_EVENT, WIFI_EVENT_STA_DISCONNECTED)].length ∧
    ∀ e ∈ [(EventBase.WIFI_EVENT, WIFI_EVENT_STA_START),
           (EventBase.WIFI_EVENT, WIFI_EVENT_STA_DISCONNECTED)],
      connectCount (wifi_event_handler none e.1 e.2 none) = 1 :=
  connect_once_per_event _ (by decide)

/-- C4: a station-disconnected event makes the handler issue exactly one
connect request and emit exactly one diagnostic log entry — in fact its
action list is precisely the connect request followed by the retry log
line — unconditionally, with no state consulted (no backoff, no retry
limit). -/
theorem disconnected_one_connect_one_log (arg event_data : Option Nat) :
    wifi_event_handler arg EventBase.WIFI_EVENT WIFI_EVENT_STA_DISCONNECTED event_data
      = [FwAction.connect, FwAction.logInfo TAG "Retrying WiFi connection..."] ∧
    connectCount (wifi_event_handler arg EventBase.WIFI_EVENT
      WIFI_EVENT_STA_DISCONNECTED event_data) = 1 ∧
    logCount (wifi_event_handler arg EventBase.WIFI_EVENT
      WIFI_EVENT_STA_DISCONNECTED event_data) = 1 :=
  ⟨rfl, rfl, rfl⟩

/-- C5: an IP-address-assigned event makes the handler emit exactly one
diagnostic log entry and zero connect requests. -/
theorem got_ip_one_log_no_connect (arg event_data : Option Nat) :
    wifi_event_handler arg EventBase.IP_EVENT IP_EVENT_STA_GOT_IP event_data
      = [FwAction.logInfo TAG "WiFi connected. CSI should start appearing."] ∧
    logCount (wifi_event_handler arg EventBase.IP_EVENT
      IP_EVENT_STA_GOT_IP event_data) = 1 ∧
    connectCount (wifi_event_handler arg EventBase.IP_EVENT
      IP_EVENT_STA_GOT_IP event_data) = 0 :=
  ⟨rfl, rfl, rfl⟩

/-- C7: any event other than station-started, station-disconnected or
IP-address-assigned leaves the handler with an empty action list: no
connect request, no log entry. -/
theorem other_events_ignored (arg event_data : Option Nat)
    (b : EventBase) (i : Int)
    (h : ¬ ((b = EventBase.WIFI_EVENT ∧ i = WIFI_EVENT_STA_START) ∨
            (b = EventBase.WIFI_EVENT ∧ i = WIFI_EVENT_STA_DISCONNECTED) ∨
            (b = EventBase.IP_EVENT ∧ i = IP_EVENT_STA_GOT_IP))) :
    wifi_event_handler arg b i event_data = [] := by
  unfold wifi_event_handler
  split_ifs with hA hB hC
  · exact absurd (Or.inl hA) h
  · exact absurd (Or.inr (Or.inl hB)) h
  · exact absurd (Or.inr (Or.inr hC)) h
  · rfl

/-- Witness for `other_events_ignored` at the link-layer event id 3
(`WIFI_EVENT_STA_STOP`), which is none of the three handled pairs. -/
theorem other_events_ignored_witness :
    wifi_event_handler none EventBase.WIFI_EVENT 3 none = [] :=
  other_events_ignored none none EventBase.WIFI_EVENT 3 (by decide)

/-- C3: the claim's ordering is wrong on the code: `wifi_init` sets the
station operating mode (line 76) before it applies the connection
configuration (line 77), while the claim lists applying the configuration
before setting the mode. -/
theorem init_order_cex :
    wifi_init_trace.filter isCoreInitStep ≠ claimedInitOrder := by decide

/-- C3 (amended): `initialize()` performs its listed steps in this order:
set up the network-interface runtime, create the default event-dispatch
loop, create a default station network interface, initialize the radio
with default tuning parameters, subscribe to link-layer lifecycle events
and IP-assignment events with a single handler, set station operating
mode, apply the Connection Configuration (network identifier, secret,
minimum authentication strength), and finally start the radio. -/
theorem init_order_amended :
    wifi_init_trace.filter isCoreInitStep = actualInitOrder := by decide

/-- C8: performing the capture registration sequence (install capture
configuration, register the CSI callback, set capture enablement) twice
with identical arguments leaves the radio in the same registration state,
hence the same subsequent output for every list of delivered samples, as
performing it once. -/
theorem registration_idempotent (c : CsiConfig)
    (f : Option Nat → CsiInfo → String) (ctx : Option Nat) (b : Bool)
    (s : RadioCsiState) (samples : List CsiInfo) :
    registrationSeq c f ctx b (registrationSeq c f ctx b s)
      = registrationSeq c f ctx b s ∧
    subsequentOutput (registrationSeq c f ctx b (registrationSeq c f ctx b s)) samples
      = subsequentOutput (registrationSeq c f ctx b s) samples :=
  ⟨rfl, rfl⟩

/-- C9: the callback's output depends on no buffer cell outside indices
`0 .. len-1` (two buffers agreeing there produce the same line), and when
`len ≤ 0` the loop body never runs: no cell is read at all and the output
is the bare label line. -/
theorem csi_cb_reads_in_bounds (ctx : Option Nat) (len : Int)
    (b g : Int → Int)
    (hagree : ∀ i : Int, 0 ≤ i → i < len → g i = b i) :
    wifi_csi_cb ctx ⟨len, g⟩ = wifi_csi_cb ctx ⟨len, b⟩ ∧
    (len ≤ 0 → wifi_csi_cb ctx ⟨len, b⟩ = "CSI_DATA: \n") := by
  constructor
  · exact wifi_csi_cb_congr ctx ctx ⟨len, g⟩ ⟨len, b⟩ rfl hagree
  · intro hle
    unfold wifi_csi_cb
    have h0 : (CsiInfo.mk len b).len.toNat = 0 := Int.toNat_of_nonpos hle
    rw [h0]
    rfl

/-- Witness for `csi_cb_reads_in_bounds` at `len = -3` with two buffers
that differ everywhere (so the agreement hypothesis holds vacuously). -/
theorem csi_cb_reads_in_bounds_witness :
    wifi_csi_cb none ⟨-3, fun _ => 1⟩ = wifi_csi_cb none ⟨-3, fun _ => 2⟩ ∧
    ((-3 : Int) ≤ 0 → wifi_csi_cb none ⟨-3, fun _ => 2⟩ = "CSI_DATA: \n") :=
  csi_cb_reads_in_bounds none (-3) (fun _ => 2) (fun _ => 1)
    (fun _ h1 h2 => absurd h2 (by omega))

/-- C10: the line the callback appends to the console is a deterministic
function of the sample's length and its first `len` byte values alone:
two invocations whose samples agree there emit identical lines, whatever
the `ctx` argument and whatever was already on the console. -/
theorem csi_emission_deterministic (hist1 hist2 : List String)
    (ctx1 ctx2 : Option Nat) (info1 info2 : CsiInfo)
    (hlen : info1.len = info2.len)
    (hbuf : ∀ i : Int, 0 ≤ i → i < info1.len → info1.buf i = info2.buf i) :
    (csiConsoleRun hist1 ctx1 info1).getLast?
      = (csiConsoleRun hist2 ctx2 info2).getLast? := by
  unfold csiConsoleRun
  rw [List.getLast?_concat, List.getLast?_concat]
  exact congrArg some (wifi_csi_cb_congr ctx1 ctx2 info1 info2 hlen hbuf)

/-- Witness for `csi_emission_deterministic`: the sample `[5]` delivered
with no context on an empty console, against a pointwise-equal buffer
delivered with a different context after one earlier line. -/
theorem csi_emission_deterministic_witness :
    (csiConsoleRun [] none (sampleInfo [5])).getLast?
      = (csiConsoleRun ["CSI_DATA: \n"] (some 4)
          ⟨1, fun i => if i = 0 then 5 else 77⟩).getLast? :=
  csi_emission_deterministic [] ["CSI_DATA: \n"] none (some 4)
    (sampleInfo [5]) ⟨1, fun i => if i = 0 then 5 else 77⟩ rfl
    (by
      intro i h1 h2
      have h2' : i < (1 : Int) := h2
      have hi : i = 0 := by omega
      subst hi
      rfl)
